import Mathlib

/-!
# Verification of the release-controller ReleaseCreationStatusController and changelog renderer

Shallow embedding of:
* the `ReleaseCreationStatusController` of the release-payload controller
  (status mapper `computeReleaseCreationJobStatus` / `computeReleaseCreationJobMessage`
  and the reconciliation entry point `sync`), whose implementation file is not in
  `src/` (only its test file is); those definitions are modelled from the spec,
  with every behavioural choice pinned by the test file `src/unnamed/part_000`;
* `getChangeLog` from `src/cmd/release-controller-api/http_changelog.go`,
  embedded directly from the source.

Go strings are Lean `String`; Go `*metav1.Time` is `Option Nat` (only presence
matters to the controller); Go `int32` counters are `Int`; the Kubernetes
listers/clients are explicit association lists; a channel send becomes an
append to the list of emitted results.
-/

/-- Condition of a Kubernetes batch job (`k8s.io/api/batch/v1.JobCondition`),
restricted to the fields the controller reads: `Type` (here `ctype`, since
`Type` is reserved in Lean), `Status`, `Reason`, `Message`. -/
structure JobCondition where
  ctype : String
  status : String
  reason : String
  message : String
  deriving Repr, DecidableEq

/-- `k8s.io/api/batch/v1.JobStatus`, restricted to the fields the controller
reads: `CompletionTime` (an `Option`: only presence matters), `Conditions`,
`Active` and `Ready` counters (`Ready` is a nullable pointer in Go). -/
structure JobStatus where
  completionTime : Option Nat
  conditions : List JobCondition
  active : Int
  ready : Option Int
  deriving Repr, DecidableEq

/-- A Kubernetes batch job: name, namespace (`ns`) and status. -/
structure Job where
  name : String
  ns : String
  status : JobStatus
  deriving Repr, DecidableEq

/-- `batchv1.JobFailed` condition type. -/
def JobFailed : String := "Failed"

/-- `batchv1.JobSuspended` condition type. -/
def JobSuspended : String := "Suspended"

/-- `corev1.ConditionTrue`. -/
def ConditionTrue : String := "True"

/-- `v1alpha1.ReleaseCreationJobSuccess` (the Go type is a string type; its
zero value is the empty string). -/
def ReleaseCreationJobSuccess : String := "Success"

/-- `v1alpha1.ReleaseCreationJobFailed`. -/
def ReleaseCreationJobFailed : String := "Failed"

/-- `v1alpha1.ReleaseCreationJobUnknown`. -/
def ReleaseCreationJobUnknown : String := "Unknown"

/-- Modelled from the spec: the fixed success message constant
`ReleaseCreationJobSuccessMessage` of the controller implementation file,
which is not in `src/` (the test file references it by name only). The exact
string is unspecified; only its identity matters to the properties proved
here. -/
def ReleaseCreationJobSuccessMessage : String :=
  "Release creation job completed successfully"

/-- Modelled from the spec: the fixed generic failure message constant
`ReleaseCreationJobFailureMessage` (implementation file not in `src/`). -/
def ReleaseCreationJobFailureMessage : String :=
  "Release creation job failed"

/-- Modelled from the spec: the fixed pending message constant
`ReleaseCreationJobPendingMessage` (implementation file not in `src/`). The
test file distinguishes it from `ReleaseCreationJobUnknownMessage` (separate
test cases `JobStatusReady` / `JobStatusActive` expect the pending constant,
while `JobStatusConditionsNotSet` expects the unknown constant), so the two
are modelled as distinct strings. -/
def ReleaseCreationJobPendingMessage : String :=
  "Release creation job is pending"

/-- Modelled from the spec: the fixed unknown message constant
`ReleaseCreationJobUnknownMessage` (implementation file not in `src/`). -/
def ReleaseCreationJobUnknownMessage : String :=
  "Unable to determine the status of the release creation job"

/-- A condition of type `Failed` whose status is `True`. -/
def isFailedTrue (c : JobCondition) : Bool :=
  c.ctype == JobFailed && c.status == ConditionTrue

/-- Modelled from the spec: `computeReleaseCreationJobStatus` of the
controller implementation file (not in `src/`). Completion timestamp present
takes precedence and yields Success; otherwise a Failed-type condition with
true status yields Failed; otherwise Unknown. Pinned by
`TestComputeReleaseCreationJobStatus` in `src/unnamed/part_000`. -/
def computeReleaseCreationJobStatus (job : Job) : String :=
  if job.status.completionTime.isSome then ReleaseCreationJobSuccess
  else
    match job.status.conditions.find? isFailedTrue with
    | some _ => ReleaseCreationJobFailed
    | none => ReleaseCreationJobUnknown

/-- The job reports work in flight: a positive `Active` counter or a non-nil
positive `Ready` counter. -/
def jobPendingCounters (s : JobStatus) : Bool :=
  s.active > 0 ||
    (match s.ready with
     | some r => r > 0
     | none => false)

/-- Modelled from the spec: `computeReleaseCreationJobMessage` of the
controller implementation file (not in `src/`). Completion timestamp present
yields the fixed success message; otherwise the first Failed-type condition
with true status yields `"<reason>: <message>"` when both fields are
non-empty and the fixed generic failure message otherwise; otherwise the
fixed pending message when the active/ready counters show work in flight,
and the fixed unknown message when not. Pinned by
`TestComputeReleaseCreationJobMessage` in `src/unnamed/part_000`. -/
def computeReleaseCreationJobMessage (job : Job) : String :=
  if job.status.completionTime.isSome then ReleaseCreationJobSuccessMessage
  else
    match job.status.conditions.find? isFailedTrue with
    | some c =>
        if c.reason != "" && c.message != "" then c.reason ++ ": " ++ c.message
        else ReleaseCreationJobFailureMessage
    | none =>
        if jobPendingCounters job.status then ReleaseCreationJobPendingMessage
        else ReleaseCreationJobUnknownMessage

/-- `v1alpha1.ReleaseCreationJobCoordinates`: the (namespace, name) reference
from a ReleasePayload to its release creation job. -/
structure ReleaseCreationJobCoordinates where
  ns : String
  name : String
  deriving Repr, DecidableEq

/-- `v1alpha1.ReleaseCreationJobResult`: the status sub-structure the
controller owns on a ReleasePayload. `status` is the Go string type
`ReleaseCreationJobStatus`, whose zero value is the empty string. -/
structure ReleaseCreationJobResult where
  coordinates : ReleaseCreationJobCoordinates
  status : String
  message : String
  deriving Repr, DecidableEq

/-- `v1alpha1.ReleasePayload`, restricted to the fields the controller reads
and writes: object meta (name, namespace) and
`Status.ReleaseCreationJobResult`. -/
structure ReleasePayload where
  name : String
  ns : String
  result : ReleaseCreationJobResult
  deriving Repr, DecidableEq

/-- Errors `sync` can return. `coordinatesNotSet` is the distinguished
`ErrCoordinatesNotSet` sentinel; `invalidKey` is the error of
`cache.SplitMetaNamespaceKey` on a malformed key. -/
inductive SyncError where
  | coordinatesNotSet
  | invalidKey
  deriving Repr, DecidableEq

/-- State visible to one reconciliation pass of the
`ReleaseCreationStatusController`: the configured batch-job namespace, the
ReleasePayload store (cache and live client collapse to one list, updated in
place by a status write) and the read-only batch-job store. Resources of
unrelated kinds (such as the CronJob in the test file) are simply absent
from the job list. -/
structure ControllerState where
  batchJobNamespace : String
  payloads : List ReleasePayload
  jobs : List Job
  deriving Repr, DecidableEq

/-- Outcome of one `sync` call: the returned error (`none` is success), the
payload store afterwards, and the number of status writes performed. -/
structure SyncResult where
  error : Option SyncError
  payloads : List ReleasePayload
  writes : Nat
  deriving Repr, DecidableEq

/-- Split a character list at every `/`, the semantics of Go
`strings.Split` with separator `"/"` (structural recursion so that concrete
keys evaluate inside the kernel). -/
def splitSlash : List Char → List (List Char)
  | [] => [[]]
  | ch :: rest =>
    if ch = '/' then [] :: splitSlash rest
    else
      match splitSlash rest with
      | [] => [[ch]]
      | g :: gs => (ch :: g) :: gs

/-- `cache.SplitMetaNamespaceKey`: a key without a slash is a bare name, a
`namespace/name` key splits in two, anything else is an error. -/
def parseKey (key : String) : Option (String × String) :=
  match (splitSlash key.toList).map (fun l => String.mk l) with
  | [n] => some ("", n)
  | [ns, n] => some (ns, n)
  | _ => none

/-- Lister lookup of a ReleasePayload by namespace and name. -/
def findPayload (ps : List ReleasePayload) (ns n : String) : Option ReleasePayload :=
  ps.find? fun p => p.ns == ns && p.name == n

/-- Batch-job lister lookup: `c.batchJobLister.Jobs(c.batchJobNamespace).Get(coordinates.Name)` —
the namespace used is the controller's configured job namespace and the name
is the coordinates' name; the coordinates' namespace component is ignored. -/
def lookupJob (jobs : List Job) (batchJobNamespace : String)
    (coordinates : ReleaseCreationJobCoordinates) : Option Job :=
  jobs.find? fun j => j.ns == batchJobNamespace && j.name == coordinates.name

/-- `UpdateStatus` against the payload store: every payload at the given
namespace and name is replaced by the updated one. -/
def updatePayload (ps : List ReleasePayload) (ns n : String)
    (p : ReleasePayload) : List ReleasePayload :=
  ps.map fun q => if q.ns == ns && q.name == n then p else q

/-- Modelled from the spec: `sync` of the `ReleaseCreationStatusController`
implementation file (not in `src/`), following spec section 4.2 and pinned
by `TestReleaseCreationStatusSync` in `src/unnamed/part_000`:
1. split the key; 2. resolve the payload from the lister, not-found being a
no-op success; 3. if the coordinates' namespace and name are both empty,
return `ErrCoordinatesNotSet`; 4. look the job up under the configured job
namespace and the coordinates' name, a missing job yielding the
Unknown/unknown-message default; 5. compute the desired status and message
via the status mapper; 6. if they equal the stored
`ReleaseCreationJobResult` fields, return success without writing, else
write the updated status sub-resource. -/
def sync (c : ControllerState) (key : String) : SyncResult :=
  match parseKey key with
  | none => ⟨some SyncError.invalidKey, c.payloads, 0⟩
  | some (ns, n) =>
    match findPayload c.payloads ns n with
    | none => ⟨none, c.payloads, 0⟩
    | some r =>
      if r.result.coordinates.ns == "" && r.result.coordinates.name == "" then
        ⟨some SyncError.coordinatesNotSet, c.payloads, 0⟩
      else
        let desired :=
          match lookupJob c.jobs c.batchJobNamespace r.result.coordinates with
          | some job =>
              (computeReleaseCreationJobStatus job, computeReleaseCreationJobMessage job)
          | none => (ReleaseCreationJobUnknown, ReleaseCreationJobUnknownMessage)
        if r.result.status == desired.1 && r.result.message == desired.2 then
          ⟨none, c.payloads, 0⟩
        else
          ⟨none,
            updatePayload c.payloads ns n
              { r with result :=
                  { r.result with status := desired.1, message := desired.2 } },
            1⟩

/-- The part of `releasecontroller.ImageInfo` that `getChangeLog` reads: the
config architecture and the digest pull spec produced by
`GenerateDigestPullSpec`. -/
structure ImageInfo where
  architecture : String
  digestPullSpec : String
  deriving Repr, DecidableEq

/-- Lines 62-72 of `http_changelog.go`: translate the architecture reported
by ReleaseInfo into the architecture and file-name extension the RHCOS diff
engine expects; `amd64` becomes `x86_64` with no extension, `arm64` becomes
`aarch64` with extension `-aarch64`, anything else is kept with extension
`-<architecture>`. -/
def archInfo (arch : String) : String × String :=
  if arch == "amd64" then ("x86_64", "")
  else if arch == "arm64" then ("aarch64", "-aarch64")
  else (arch, "-" ++ arch)

/-- Lines 81-84 of `http_changelog.go`: best-effort header rewrite — drop
every `# <toTag>` heading, and if any `## Changes from <fromTag>` heading was
present (detected by a length change after removal), hoist a single such
heading to the front. -/
def stripHeaders (fromTag toTag out : String) : String :=
  let out1 := out.replace ("# " ++ toTag) ""
  let changed := out1.replace ("## Changes from " ++ fromTag) ""
  if changed.length != out1.length then "## Changes from " ++ fromTag ++ "\n" ++ changed
  else out1

/-- `getChangeLog` from `src/cmd/release-controller-api/http_changelog.go`,
as the list of results sent on its channel (`renderResult` becomes
`Except String String`: an error or an output). External collaborators are
explicit arguments: the two `GetImageInfo` results, the
`releaseInfo.ChangeLog` generator (taking the two digest pull specs and the
json flag), the compiled previous-version link substitution
(`regexp.Compile` of the quoted `fromTag` pattern, `Except` because the code
has an error branch for compilation failure), the promoted-from link
rewriter (taking `toTag`), and the two RHCOS rewriters (taking the
architecture and extension from `archInfo`). For format `json` the raw
generator output is sent as soon as it is available, and — because the
source has no `return` in that branch — the function falls through to the
markdown post-processing and sends a second, post-processed result. -/
def getChangeLog
    (fromImage toImage : Except String ImageInfo)
    (changeLogGen : String → String → Bool → Except String String)
    (rePreviousReplace : Except String (String → String))
    (rePromotedFromReplace : String → String → String)
    (rhcosDiffRewrite rhcosVersionRewrite : String → String → String → String)
    (fromTag toTag format : String) : List (Except String String) :=
  match fromImage with
  | Except.error e => [Except.error e]
  | Except.ok fi =>
  match toImage with
  | Except.error e => [Except.error e]
  | Except.ok ti =>
  let isJson := format == "json"
  match changeLogGen fi.digestPullSpec ti.digestPullSpec isJson with
  | Except.error e => [Except.error e]
  | Except.ok out =>
  let jsonSends := if isJson then [Except.ok out] else []
  let arch := archInfo ti.architecture
  match rePreviousReplace with
  | Except.error e => jsonSends ++ [Except.error e]
  | Except.ok replacePrevious =>
    let out1 := stripHeaders fromTag toTag out
    let out2 := replacePrevious out1
    let out3 := rePromotedFromReplace toTag out2
    let out4 := rhcosDiffRewrite arch.1 arch.2 out3
    let out5 := rhcosVersionRewrite arch.1 arch.2 out4
    jsonSends ++ [Except.ok out5]

def c1Job : Job :=
  ⟨"4.11.0-0.nightly-2022-02-09-091559", "ci-release",
    ⟨some 1644397200,
      [⟨JobFailed, ConditionTrue, "BackoffLimitExceeded", "boom"⟩,
       ⟨JobSuspended, ConditionTrue, "", ""⟩], 0, none⟩⟩

def c2Cond : JobCondition :=
  ⟨JobFailed, ConditionTrue, "BackoffLimitExceeded",
    "Job has reached the specified backoff limit"⟩

def c2Job : Job :=
  ⟨"4.11.0-0.nightly-2022-02-09-091559", "ci-release", ⟨none, [c2Cond], 0, none⟩⟩

def c3JobActive : Job := ⟨"job", "ci-release", ⟨none, [], 1, none⟩⟩

def c3JobNoConditions : Job := ⟨"job", "ci-release", ⟨none, [], 0, none⟩⟩

def c3SuspendedJob : Job :=
  ⟨"job", "ci-release", ⟨none, [⟨JobSuspended, ConditionTrue, "", ""⟩], 0, some 1⟩⟩

def c4Payload : ReleasePayload :=
  ⟨"4.11.0-0.nightly-2022-02-09-091559", "ocp", ⟨⟨"", ""⟩, "", ""⟩⟩

def c6Job : Job :=
  ⟨"4.11.0-0.nightly-2022-02-09-091559", "ci-release", ⟨some 1644397200, [], 0, none⟩⟩

def c6PayloadUnknown : ReleasePayload :=
  ⟨"4.11.0-0.nightly-2022-02-09-091559", "ocp",
    ⟨⟨"ci-release", "4.11.0-0.nightly-2022-02-09-091559"⟩, ReleaseCreationJobUnknown, ""⟩⟩

def c6PayloadEmpty : ReleasePayload :=
  ⟨"4.11.0-0.nightly-2022-02-09-091559", "ocp",
    ⟨⟨"ci-release", "4.11.0-0.nightly-2022-02-09-091559"⟩, "", ""⟩⟩

def c7Payload : ReleasePayload :=
  ⟨"4.11.0-0.nightly-2022-02-09-091559", "ocp",
    ⟨⟨"ci-release", "4.11.0-0.nightly-2022-02-09-091559"⟩, ReleaseCreationJobUnknown, ""⟩⟩

def c5Payload : ReleasePayload :=
  ⟨"4.11.0-0.nightly-2022-02-09-091559", "ocp",
    ⟨⟨"ci-release", "4.11.0-0.nightly-2022-02-09-091559"⟩, ReleaseCreationJobUnknown, ""⟩⟩

def c5Job : Job :=
  ⟨"4.11.0-0.nightly-2022-02-09-091559", "ci-release", ⟨some 1644397200, [], 0, none⟩⟩

def c5State : ControllerState := ⟨"ci-release", [c5Payload], [c5Job]⟩

def c9Job : Job :=
  ⟨"4.11.0-0.nightly-2022-02-09-091559", "ci-release", ⟨none, [], 1, none⟩⟩

def c10Gen : String → String → Bool → Except String String :=
  fun _ _ _ => Except.ok "raw"

def c10Id : String → String := fun s => s

def c10Keep2 : String → String → String := fun _ s => s

def c10Keep3 : String → String → String → String := fun _ _ s => s

def c10From : ImageInfo := ⟨"amd64", "from-spec"⟩

def c10To : ImageInfo := ⟨"amd64", "to-spec"⟩

/-- Test vector `JobStatusCompletionTimeSet` of
`TestComputeReleaseCreationJobStatus` (`src/unnamed/part_000`). -/
theorem testVector_completionTimeSet :
    computeReleaseCreationJobStatus
      ⟨"4.11.0-0.nightly-2022-02-09-091559", "ci-release",
        ⟨some 1644397200, [], 0, none⟩⟩ = ReleaseCreationJobSuccess := by
  decide

/-- Test vectors `JobStatusConditionsSuspendedSet` and
`JobStatusConditionsFailedSet` of `TestComputeReleaseCreationJobStatus`
(`src/unnamed/part_000`). -/
theorem testVector_conditions :
    computeReleaseCreationJobStatus
        ⟨"j", "ci-release", ⟨none, [⟨JobSuspended, ConditionTrue, "", ""⟩], 0, none⟩⟩ =
      ReleaseCreationJobUnknown ∧
    computeReleaseCreationJobStatus
        ⟨"j", "ci-release", ⟨none, [⟨JobFailed, ConditionTrue, "", ""⟩], 0, none⟩⟩ =
      ReleaseCreationJobFailed := by
  decide

/-- Test vectors of `TestComputeReleaseCreationJobMessage`
(`src/unnamed/part_000`): empty conditions give the unknown message, a
Failed condition with reason and message gives their concatenation, a ready
or active counter gives the pending message. -/
theorem testVector_messages :
    computeReleaseCreationJobMessage ⟨"j", "ci-release", ⟨none, [], 0, none⟩⟩ =
      ReleaseCreationJobUnknownMessage ∧
    computeReleaseCreationJobMessage
        ⟨"j", "ci-release",
          ⟨none,
            [⟨JobFailed, ConditionTrue, "BackoffLimitExceeded",
               "Job has reached the specified backoff limit"⟩], 0, none⟩⟩ =
      "BackoffLimitExceeded: Job has reached the specified backoff limit" ∧
    computeReleaseCreationJobMessage ⟨"j", "ci-release", ⟨none, [], 0, some 1⟩⟩ =
      ReleaseCreationJobPendingMessage ∧
    computeReleaseCreationJobMessage ⟨"j", "ci-release", ⟨none, [], 1, none⟩⟩ =
      ReleaseCreationJobPendingMessage := by
  decide

/-- C1: for every job whose completion timestamp is set,
`computeReleaseCreationJobStatus` returns Success and
`computeReleaseCreationJobMessage` returns the fixed success message,
regardless of any conditions also present on the job. -/
theorem claim_C1 (job : Job) (t : Nat) (h : job.status.completionTime = some t) :
    computeReleaseCreationJobStatus job = ReleaseCreationJobSuccess ∧
    computeReleaseCreationJobMessage job = ReleaseCreationJobSuccessMessage := by
  unfold computeReleaseCreationJobStatus computeReleaseCreationJobMessage
  rw [h]
  simp

/-- Witness for C1 at a concrete completed job that also carries a Failed and
a Suspended condition. -/
theorem claim_C1_witness :
    c1Job.status.completionTime = some 1644397200 ∧
    (computeReleaseCreationJobStatus c1Job = ReleaseCreationJobSuccess ∧
     computeReleaseCreationJobMessage c1Job = ReleaseCreationJobSuccessMessage) :=
  ⟨rfl, claim_C1 c1Job 1644397200 rfl⟩

/-- C2: for every job without a completion timestamp whose condition list
yields a Failed-type condition with true status,
`computeReleaseCreationJobStatus` returns Failed, and
`computeReleaseCreationJobMessage` returns `"<reason>: <message>"` when the
condition's reason and message are both non-empty and the fixed generic
failure message when either is empty. -/
theorem claim_C2 (job : Job) (c : JobCondition)
    (hct : job.status.completionTime = none)
    (hfind : job.status.conditions.find? isFailedTrue = some c) :
    computeReleaseCreationJobStatus job = ReleaseCreationJobFailed ∧
    (c.reason ≠ "" → c.message ≠ "" →
      computeReleaseCreationJobMessage job = c.reason ++ ": " ++ c.message) ∧
    ((c.reason = "" ∨ c.message = "") →
      computeReleaseCreationJobMessage job = ReleaseCreationJobFailureMessage) := by
  unfold computeReleaseCreationJobStatus computeReleaseCreationJobMessage
  rw [hct, hfind]
  simp only [Option.isSome_none, Bool.false_eq_true, if_false]
  refine ⟨by trivial, ?_, ?_⟩
  · intro hr hm
    simp [hr, hm]
  · intro hrm
    rcases hrm with h | h <;> simp [h]

/-- Witness for C2 at the BackoffLimitExceeded job of the test file. -/
theorem claim_C2_witness :
    c2Job.status.completionTime = none ∧
    c2Job.status.conditions.find? isFailedTrue = some c2Cond ∧
    c2Cond.reason ≠ "" ∧ c2Cond.message ≠ "" ∧
    computeReleaseCreationJobStatus c2Job = ReleaseCreationJobFailed ∧
    computeReleaseCreationJobMessage c2Job = c2Cond.reason ++ ": " ++ c2Cond.message :=
  ⟨rfl, by decide, by decide, by decide,
    (claim_C2 c2Job c2Cond rfl (by decide)).1,
    (claim_C2 c2Job c2Cond rfl (by decide)).2.1 (by decide) (by decide)⟩

/-- C3, counterexample: two jobs both within the claim's shapes (no
completion timestamp, no Failed-type condition — one with only the active
counter set, one with empty conditions and counters) both map to the Unknown
status, yet their messages differ: the active job gets the pending message
and the bare job gets the unknown message, so there is no single fixed
message covering all shapes of the claim. -/
theorem claim_C3_counterexample :
    c3JobActive.status.completionTime = none ∧
    c3JobNoConditions.status.completionTime = none ∧
    c3JobActive.status.conditions = [] ∧
    c3JobNoConditions.status.conditions = [] ∧
    computeReleaseCreationJobStatus c3JobActive = ReleaseCreationJobUnknown ∧
    computeReleaseCreationJobStatus c3JobNoConditions = ReleaseCreationJobUnknown ∧
    computeReleaseCreationJobMessage c3JobActive ≠
      computeReleaseCreationJobMessage c3JobNoConditions := by
  decide

/-- C3, amended: for every job with no completion timestamp whose conditions
are all Suspended-type (in particular empty), the status is Unknown and the
message is the fixed pending message when the active/ready counters show
work in flight and the fixed unknown message otherwise. -/
theorem claim_C3_amended (job : Job)
    (hct : job.status.completionTime = none)
    (hs : ∀ c ∈ job.status.conditions, c.ctype = JobSuspended) :
    computeReleaseCreationJobStatus job = ReleaseCreationJobUnknown ∧
    computeReleaseCreationJobMessage job =
      (if jobPendingCounters job.status then ReleaseCreationJobPendingMessage
       else ReleaseCreationJobUnknownMessage) := by
  have hne : (JobSuspended == JobFailed) = false := by decide
  have hfind : job.status.conditions.find? isFailedTrue = none := by
    rw [List.find?_eq_none]
    intro c hc
    simp [isFailedTrue, hs c hc, hne]
  unfold computeReleaseCreationJobStatus computeReleaseCreationJobMessage
  rw [hct, hfind]
  simp

/-- Witness for the amended C3 at a suspended job whose ready counter is
set. -/
theorem claim_C3_witness :
    c3SuspendedJob.status.completionTime = none ∧
    (∀ c ∈ c3SuspendedJob.status.conditions, c.ctype = JobSuspended) ∧
    (computeReleaseCreationJobStatus c3SuspendedJob = ReleaseCreationJobUnknown ∧
     computeReleaseCreationJobMessage c3SuspendedJob =
       (if jobPendingCounters c3SuspendedJob.status then ReleaseCreationJobPendingMessage
        else ReleaseCreationJobUnknownMessage)) :=
  ⟨rfl, by decide, claim_C3_amended c3SuspendedJob rfl (by decide)⟩

/-- After replacing every element satisfying `pred` by `pnew` (which itself
satisfies `pred`), a `find?` that previously succeeded now finds `pnew`. -/
theorem find?_map_update {α : Type} (pred : α → Bool) (pnew : α)
    (hp : pred pnew = true) :
    ∀ (l : List α) (r : α), l.find? pred = some r →
      (l.map fun q => if pred q then pnew else q).find? pred = some pnew := by
  intro l
  induction l with
  | nil => intro r h; simp at h
  | cons q qs ih =>
    intro r h
    by_cases hq : pred q = true
    · simp only [List.map_cons, if_pos hq]
      exact List.find?_cons_of_pos _ hp
    · rw [List.find?_cons_of_neg _ hq] at h
      simp only [List.map_cons, if_neg hq]
      rw [List.find?_cons_of_neg _ hq]
      exact ih r h

/-- C4: for every record whose coordinates namespace and name are both
empty, `sync` returns the distinguished coordinates-not-set error and the
payload store is left unmodified with zero writes. -/
theorem claim_C4 (c : ControllerState) (key ns n : String) (r : ReleasePayload)
    (hkey : parseKey key = some (ns, n))
    (hfind : findPayload c.payloads ns n = some r)
    (hns : r.result.coordinates.ns = "")
    (hname : r.result.coordinates.name = "") :
    sync c key = ⟨some SyncError.coordinatesNotSet, c.payloads, 0⟩ := by
  simp [sync, hkey, hfind, hns, hname]

/-- Witness for C4 at the `ReleasePayloadStatusNotSet` state of the test
file: a payload with a zero-valued status sub-structure. -/
theorem claim_C4_witness :
    parseKey "ocp/4.11.0-0.nightly-2022-02-09-091559" =
      some ("ocp", "4.11.0-0.nightly-2022-02-09-091559") ∧
    findPayload [c4Payload] "ocp" "4.11.0-0.nightly-2022-02-09-091559" = some c4Payload ∧
    c4Payload.result.coordinates.ns = "" ∧
    c4Payload.result.coordinates.name = "" ∧
    sync ⟨"ci-release", [c4Payload], []⟩ "ocp/4.11.0-0.nightly-2022-02-09-091559" =
      ⟨some SyncError.coordinatesNotSet, [c4Payload], 0⟩ :=
  ⟨by decide, by decide, rfl, rfl,
    claim_C4 ⟨"ci-release", [c4Payload], []⟩ _ "ocp"
      "4.11.0-0.nightly-2022-02-09-091559" c4Payload (by decide) (by decide) rfl rfl⟩

/-- C8: for every key whose record is absent from the record cache, `sync`
returns success with the payload store unmodified and zero writes. -/
theorem claim_C8 (c : ControllerState) (key ns n : String)
    (hkey : parseKey key = some (ns, n))
    (hfind : findPayload c.payloads ns n = none) :
    sync c key = ⟨none, c.payloads, 0⟩ := by
  simp [sync, hkey, hfind]

/-- Witness for C8 at an empty record store. -/
theorem claim_C8_witness :
    parseKey "ocp/4.11.0-0.nightly-2022-02-09-091559" =
      some ("ocp", "4.11.0-0.nightly-2022-02-09-091559") ∧
    findPayload ([] : List ReleasePayload) "ocp"
      "4.11.0-0.nightly-2022-02-09-091559" = none ∧
    sync ⟨"ci-release", [], []⟩ "ocp/4.11.0-0.nightly-2022-02-09-091559" =
      ⟨none, [], 0⟩ :=
  ⟨by decide, rfl,
    claim_C8 ⟨"ci-release", [], []⟩ _ "ocp" "4.11.0-0.nightly-2022-02-09-091559"
      (by decide) rfl⟩

/-- C6: after one `sync` of a record whose coordinates resolve to a job with
a completion timestamp set, the persisted record's result has status Success
and the fixed success message, whatever the previously stored status
(covering both a prior Unknown and a prior empty/never-set status), and the
call succeeds. -/
theorem claim_C6 (c : ControllerState) (key ns n : String) (r : ReleasePayload)
    (job : Job) (t : Nat)
    (hkey : parseKey key = some (ns, n))
    (hfind : findPayload c.payloads ns n = some r)
    (hcoords : (r.result.coordinates.ns == "" && r.result.coordinates.name == "") = false)
    (hjob : lookupJob c.jobs c.batchJobNamespace r.result.coordinates = some job)
    (hct : job.status.completionTime = some t) :
    (sync c key).error = none ∧
    (findPayload (sync c key).payloads ns n).map
        (fun p => (p.result.status, p.result.message)) =
      some (ReleaseCreationJobSuccess, ReleaseCreationJobSuccessMessage) := by
  have hstatus : computeReleaseCreationJobStatus job = ReleaseCreationJobSuccess := by
    unfold computeReleaseCreationJobStatus
    rw [hct]
    simp
  have hmsg : computeReleaseCreationJobMessage job = ReleaseCreationJobSuccessMessage := by
    unfold computeReleaseCreationJobMessage
    rw [hct]
    simp
  have hfind' : c.payloads.find? (fun p : ReleasePayload => p.ns == ns && p.name == n) =
      some r := hfind
  have hpred0 := List.find?_some hfind'
  have hpred : (r.ns == ns && r.name == n) = true := hpred0
  by_cases hcmp : (r.result.status == ReleaseCreationJobSuccess &&
      r.result.message == ReleaseCreationJobSuccessMessage) = true
  · have hs : sync c key = ⟨none, c.payloads, 0⟩ := by
      simp [sync, hkey, hfind, hcoords, hjob, hstatus, hmsg, hcmp]
    simp only [Bool.and_eq_true, beq_iff_eq] at hcmp
    obtain ⟨h1, h2⟩ := hcmp
    rw [hs]
    refine ⟨rfl, ?_⟩
    rw [show (SyncResult.mk none c.payloads 0).payloads = c.payloads from rfl, hfind]
    simp [h1, h2]
  · have hs : sync c key =
        ⟨none,
          updatePayload c.payloads ns n
            { r with result :=
                { r.result with status := ReleaseCreationJobSuccess,
                                message := ReleaseCreationJobSuccessMessage } },
          1⟩ := by
      simp [sync, hkey, hfind, hcoords, hjob, hstatus, hmsg, hcmp]
    rw [hs]
    refine ⟨rfl, ?_⟩
    have hup := find?_map_update (fun p : ReleasePayload => p.ns == ns && p.name == n)
      { r with result :=
          { r.result with status := ReleaseCreationJobSuccess,
                          message := ReleaseCreationJobSuccessMessage } }
      hpred c.payloads r hfind'
    rw [show (SyncResult.mk none (updatePayload c.payloads ns n
        { r with result :=
            { r.result with status := ReleaseCreationJobSuccess,
                            message := ReleaseCreationJobSuccessMessage } }) 1).payloads =
      updatePayload c.payloads ns n
        { r with result :=
            { r.result with status := ReleaseCreationJobSuccess,
                            message := ReleaseCreationJobSuccessMessage } } from rfl]
    rw [show updatePayload c.payloads ns n
        { r with result :=
            { r.result with status := ReleaseCreationJobSuccess,
                            message := ReleaseCreationJobSuccessMessage } } =
      c.payloads.map fun q => if (fun p : ReleasePayload => p.ns == ns && p.name == n) q
        then { r with result :=
            { r.result with status := ReleaseCreationJobSuccess,
                            message := ReleaseCreationJobSuccessMessage } } else q from rfl]
    rw [show findPayload (c.payloads.map fun q =>
        if (fun p : ReleasePayload => p.ns == ns && p.name == n) q
        then { r with result :=
            { r.result with status := ReleaseCreationJobSuccess,
                            message := ReleaseCreationJobSuccessMessage } } else q) ns n =
      (c.payloads.map fun q =>
        if (fun p : ReleasePayload => p.ns == ns && p.name == n) q
        then { r with result :=
            { r.result with status := ReleaseCreationJobSuccess,
                            message := ReleaseCreationJobSuccessMessage } } else q).find?
        (fun p : ReleasePayload => p.ns == ns && p.name == n) from rfl]
    rw [hup]
    simp

/-- Witness for C6 at the `ReleasePayloadStatusSetWithCompleteJob` and
`ReleasePayloadStatusWithDeletedStatus` states of the test file: a prior
Unknown status and a prior empty status both converge to Success with the
success message. -/
theorem claim_C6_witness :
    c6Job.status.completionTime = some 1644397200 ∧
    ((sync ⟨"ci-release", [c6PayloadUnknown], [c6Job]⟩
        "ocp/4.11.0-0.nightly-2022-02-09-091559").error = none ∧
      (findPayload (sync ⟨"ci-release", [c6PayloadUnknown], [c6Job]⟩
            "ocp/4.11.0-0.nightly-2022-02-09-091559").payloads
          "ocp" "4.11.0-0.nightly-2022-02-09-091559").map
          (fun p => (p.result.status, p.result.message)) =
        some (ReleaseCreationJobSuccess, ReleaseCreationJobSuccessMessage)) ∧
    ((sync ⟨"ci-release", [c6PayloadEmpty], [c6Job]⟩
        "ocp/4.11.0-0.nightly-2022-02-09-091559").error = none ∧
      (findPayload (sync ⟨"ci-release", [c6PayloadEmpty], [c6Job]⟩
            "ocp/4.11.0-0.nightly-2022-02-09-091559").payloads
          "ocp" "4.11.0-0.nightly-2022-02-09-091559").map
          (fun p => (p.result.status, p.result.message)) =
        some (ReleaseCreationJobSuccess, ReleaseCreationJobSuccessMessage)) :=
  ⟨rfl,
    claim_C6 ⟨"ci-release", [c6PayloadUnknown], [c6Job]⟩ _ "ocp"
      "4.11.0-0.nightly-2022-02-09-091559" c6PayloadUnknown c6Job 1644397200
      (by decide) (by decide) (by decide) (by decide) rfl,
    claim_C6 ⟨"ci-release", [c6PayloadEmpty], [c6Job]⟩ _ "ocp"
      "4.11.0-0.nightly-2022-02-09-091559" c6PayloadEmpty c6Job 1644397200
      (by decide) (by decide) (by decide) (by decide) rfl⟩

/-- C7: for every record with coordinates set whose referenced job is absent
from the job store (which is how a resource of an unrelated kind appears to
the typed batch-job lister), `sync` succeeds and the persisted record
converges to status Unknown with the unknown message. -/
theorem claim_C7 (c : ControllerState) (key ns n : String) (r : ReleasePayload)
    (hkey : parseKey key = some (ns, n))
    (hfind : findPayload c.payloads ns n = some r)
    (hcoords : (r.result.coordinates.ns == "" && r.result.coordinates.name == "") = false)
    (hjob : lookupJob c.jobs c.batchJobNamespace r.result.coordinates = none) :
    (sync c key).error = none ∧
    (findPayload (sync c key).payloads ns n).map
        (fun p => (p.result.status, p.result.message)) =
      some (ReleaseCreationJobUnknown, ReleaseCreationJobUnknownMessage) := by
  have hfind' : c.payloads.find? (fun p : ReleasePayload => p.ns == ns && p.name == n) =
      some r := hfind
  have hpred0 := List.find?_some hfind'
  have hpred : (r.ns == ns && r.name == n) = true := hpred0
  by_cases hcmp : (r.result.status == ReleaseCreationJobUnknown &&
      r.result.message == ReleaseCreationJobUnknownMessage) = true
  · have hs : sync c key = ⟨none, c.payloads, 0⟩ := by
      simp [sync, hkey, hfind, hcoords, hjob, hcmp]
    simp only [Bool.and_eq_true, beq_iff_eq] at hcmp
    obtain ⟨h1, h2⟩ := hcmp
    rw [hs]
    refine ⟨rfl, ?_⟩
    rw [show (SyncResult.mk none c.payloads 0).payloads = c.payloads from rfl, hfind]
    simp [h1, h2]
  · have hs : sync c key =
        ⟨none,
          updatePayload c.payloads ns n
            { r with result :=
                { r.result with status := ReleaseCreationJobUnknown,
                                message := ReleaseCreationJobUnknownMessage } },
          1⟩ := by
      simp [sync, hkey, hfind, hcoords, hjob, hcmp]
    rw [hs]
    refine ⟨rfl, ?_⟩
    have hup := find?_map_update (fun p : ReleasePayload => p.ns == ns && p.name == n)
      { r with result :=
          { r.result with status := ReleaseCreationJobUnknown,
                          message := ReleaseCreationJobUnknownMessage } }
      hpred c.payloads r hfind'
    have hup' : findPayload (updatePayload c.payloads ns n
        { r with result :=
            { r.result with status := ReleaseCreationJobUnknown,
                            message := ReleaseCreationJobUnknownMessage } }) ns n =
        some { r with result :=
            { r.result with status := ReleaseCreationJobUnknown,
                            message := ReleaseCreationJobUnknownMessage } } := hup
    simp [hup']

/-- Witness for C7 at the `ReleasePayloadStatusSetWithNoJob` state of the
test file: coordinates set, empty job store. -/
theorem claim_C7_witness :
    lookupJob ([] : List Job) "ci-release" c7Payload.result.coordinates = none ∧
    ((sync ⟨"ci-release", [c7Payload], []⟩
        "ocp/4.11.0-0.nightly-2022-02-09-091559").error = none ∧
      (findPayload (sync ⟨"ci-release", [c7Payload], []⟩
            "ocp/4.11.0-0.nightly-2022-02-09-091559").payloads
          "ocp" "4.11.0-0.nightly-2022-02-09-091559").map
          (fun p => (p.result.status, p.result.message)) =
        some (ReleaseCreationJobUnknown, ReleaseCreationJobUnknownMessage)) :=
  ⟨rfl,
    claim_C7 ⟨"ci-release", [c7Payload], []⟩ _ "ocp"
      "4.11.0-0.nightly-2022-02-09-091559" c7Payload
      (by decide) (by decide) (by decide) rfl⟩

/-- C5: reconciliation is idempotent. If one `sync` of a key succeeds, then
running `sync` again on the resulting payload store, with the job store
unchanged, returns success, performs zero writes, and leaves the store
exactly as the first run left it. -/
theorem claim_C5 (c : ControllerState) (key : String)
    (h : (sync c key).error = none) :
    sync ⟨c.batchJobNamespace, (sync c key).payloads, c.jobs⟩ key =
      ⟨none, (sync c key).payloads, 0⟩ := by
  cases hk : parseKey key with
  | none =>
    exfalso
    have hs : sync c key = ⟨some SyncError.invalidKey, c.payloads, 0⟩ := by
      simp [sync, hk]
    rw [hs] at h
    simp at h
  | some pr =>
    obtain ⟨ns, n⟩ := pr
    cases hf : findPayload c.payloads ns n with
    | none =>
      have hs : sync c key = ⟨none, c.payloads, 0⟩ := by
        simp [sync, hk, hf]
      rw [hs]
      simp [sync, hk, hf]
    | some r =>
      by_cases hce : (r.result.coordinates.ns == "" && r.result.coordinates.name == "") = true
      · exfalso
        have hs : sync c key = ⟨some SyncError.coordinatesNotSet, c.payloads, 0⟩ := by
          simp [sync, hk, hf, hce]
        rw [hs] at h
        simp at h
      · have hfind' : c.payloads.find?
            (fun p : ReleasePayload => p.ns == ns && p.name == n) = some r := hf
        have hpred0 := List.find?_some hfind'
        have hpred : (r.ns == ns && r.name == n) = true := hpred0
        cases hj : lookupJob c.jobs c.batchJobNamespace r.result.coordinates with
        | some job =>
          by_cases hcmp : (r.result.status == computeReleaseCreationJobStatus job &&
              r.result.message == computeReleaseCreationJobMessage job) = true
          · have hs : sync c key = ⟨none, c.payloads, 0⟩ := by
              simp [sync, hk, hf, hce, hj, hcmp]
            rw [hs]
            simp [sync, hk, hf, hce, hj, hcmp]
          · have hs : sync c key =
                ⟨none,
                  updatePayload c.payloads ns n
                    { r with result :=
                        { r.result with
                            status := computeReleaseCreationJobStatus job,
                            message := computeReleaseCreationJobMessage job } },
                  1⟩ := by
              simp [sync, hk, hf, hce, hj, hcmp]
            rw [hs]
            have hup := find?_map_update
              (fun p : ReleasePayload => p.ns == ns && p.name == n)
              { r with result :=
                  { r.result with
                      status := computeReleaseCreationJobStatus job,
                      message := computeReleaseCreationJobMessage job } }
              hpred c.payloads r hfind'
            have hup' : findPayload (updatePayload c.payloads ns n
                { r with result :=
                    { r.result with
                        status := computeReleaseCreationJobStatus job,
                        message := computeReleaseCreationJobMessage job } }) ns n =
                some { r with result :=
                    { r.result with
                        status := computeReleaseCreationJobStatus job,
                        message := computeReleaseCreationJobMessage job } } := hup
            have hj' : lookupJob c.jobs c.batchJobNamespace
                ({ r with result :=
                    { r.result with
                        status := computeReleaseCreationJobStatus job,
                        message := computeReleaseCreationJobMessage job } }).result.coordinates =
                some job := hj
            have hce' : (({ r with result :=
                { r.result with
                    status := computeReleaseCreationJobStatus job,
                    message := computeReleaseCreationJobMessage job } }).result.coordinates.ns == "" &&
                ({ r with result :=
                { r.result with
                    status := computeReleaseCreationJobStatus job,
                    message := computeReleaseCreationJobMessage job } }).result.coordinates.name == "") ≠ true := hce
            simp [sync, hk, hup', hce', hj']
        | none =>
          by_cases hcmp : (r.result.status == ReleaseCreationJobUnknown &&
              r.result.message == ReleaseCreationJobUnknownMessage) = true
          · have hs : sync c key = ⟨none, c.payloads, 0⟩ := by
              simp [sync, hk, hf, hce, hj, hcmp]
            rw [hs]
            simp [sync, hk, hf, hce, hj, hcmp]
          · have hs : sync c key =
                ⟨none,
                  updatePayload c.payloads ns n
                    { r with result :=
                        { r.result with
                            status := ReleaseCreationJobUnknown,
                            message := ReleaseCreationJobUnknownMessage } },
                  1⟩ := by
              simp [sync, hk, hf, hce, hj, hcmp]
            rw [hs]
            have hup := find?_map_update
              (fun p : ReleasePayload => p.ns == ns && p.name == n)
              { r with result :=
                  { r.result with
                      status := ReleaseCreationJobUnknown,
                      message := ReleaseCreationJobUnknownMessage } }
              hpred c.payloads r hfind'
            have hup' : findPayload (updatePayload c.payloads ns n
                { r with result :=
                    { r.result with
                        status := ReleaseCreationJobUnknown,
                        message := ReleaseCreationJobUnknownMessage } }) ns n =
                some { r with result :=
                    { r.result with
                        status := ReleaseCreationJobUnknown,
                        message := ReleaseCreationJobUnknownMessage } } := hup
            have hj' : lookupJob c.jobs c.batchJobNamespace
                ({ r with result :=
                    { r.result with
                        status := ReleaseCreationJobUnknown,
                        message := ReleaseCreationJobUnknownMessage } }).result.coordinates =
                none := hj
            have hce' : (({ r with result :=
                { r.result with
                    status := ReleaseCreationJobUnknown,
                    message := ReleaseCreationJobUnknownMessage } }).result.coordinates.ns == "" &&
                ({ r with result :=
                { r.result with
                    status := ReleaseCreationJobUnknown,
                    message := ReleaseCreationJobUnknownMessage } }).result.coordinates.name == "") ≠ true := hce
            simp [sync, hk, hup', hce', hj']

/-- Witness for C5: after a first `sync` that writes Success over a prior
Unknown status, the second `sync` with the job unchanged is a no-op
success. -/
theorem claim_C5_witness :
    (sync c5State "ocp/4.11.0-0.nightly-2022-02-09-091559").error = none ∧
    sync ⟨c5State.batchJobNamespace,
        (sync c5State "ocp/4.11.0-0.nightly-2022-02-09-091559").payloads, c5State.jobs⟩
      "ocp/4.11.0-0.nightly-2022-02-09-091559" =
      ⟨none, (sync c5State "ocp/4.11.0-0.nightly-2022-02-09-091559").payloads, 0⟩ :=
  ⟨by decide, claim_C5 c5State "ocp/4.11.0-0.nightly-2022-02-09-091559" (by decide)⟩

/-- C9: the job lookup of `sync` uses the controller's configured batch-job
namespace and the coordinates' name only, ignoring the coordinates'
namespace component. First conjunct: `lookupJob` finds the same job for any
two coordinate namespaces. Second conjunct: for a single-record store whose
record differs only in the coordinates' namespace (the coordinates' name
being non-empty), `sync` returns the same error, performs the same number of
writes, and persists the same status and message. -/
theorem claim_C9 (jobs : List Job) (bns pns pn nme ns1 ns2 st msg key : String)
    (hname : (nme == "") = false) :
    lookupJob jobs bns ⟨ns1, nme⟩ = lookupJob jobs bns ⟨ns2, nme⟩ ∧
    ((sync ⟨bns, [⟨pn, pns, ⟨⟨ns1, nme⟩, st, msg⟩⟩], jobs⟩ key).error =
        (sync ⟨bns, [⟨pn, pns, ⟨⟨ns2, nme⟩, st, msg⟩⟩], jobs⟩ key).error ∧
      (sync ⟨bns, [⟨pn, pns, ⟨⟨ns1, nme⟩, st, msg⟩⟩], jobs⟩ key).writes =
        (sync ⟨bns, [⟨pn, pns, ⟨⟨ns2, nme⟩, st, msg⟩⟩], jobs⟩ key).writes ∧
      ((sync ⟨bns, [⟨pn, pns, ⟨⟨ns1, nme⟩, st, msg⟩⟩], jobs⟩ key).payloads.map
          fun p => (p.result.status, p.result.message)) =
        ((sync ⟨bns, [⟨pn, pns, ⟨⟨ns2, nme⟩, st, msg⟩⟩], jobs⟩ key).payloads.map
          fun p => (p.result.status, p.result.message))) := by
  refine ⟨rfl, ?_⟩
  cases hk : parseKey key with
  | none =>
    simp [sync, hk]
  | some pr =>
    obtain ⟨ns, n⟩ := pr
    cases hb : ((pns == ns) && (pn == n)) with
    | false =>
      have hf1 : findPayload [(⟨pn, pns, ⟨⟨ns1, nme⟩, st, msg⟩⟩ : ReleasePayload)] ns n =
          none := by
        simp [findPayload, hb]
      have hf2 : findPayload [(⟨pn, pns, ⟨⟨ns2, nme⟩, st, msg⟩⟩ : ReleasePayload)] ns n =
          none := by
        simp [findPayload, hb]
      simp [sync, hk, hf1, hf2]
    | true =>
      have hf1 : findPayload [(⟨pn, pns, ⟨⟨ns1, nme⟩, st, msg⟩⟩ : ReleasePayload)] ns n =
          some ⟨pn, pns, ⟨⟨ns1, nme⟩, st, msg⟩⟩ := by
        simp [findPayload, hb]
      have hf2 : findPayload [(⟨pn, pns, ⟨⟨ns2, nme⟩, st, msg⟩⟩ : ReleasePayload)] ns n =
          some ⟨pn, pns, ⟨⟨ns2, nme⟩, st, msg⟩⟩ := by
        simp [findPayload, hb]
      obtain ⟨e1, e2⟩ : pns = ns ∧ pn = n := by simpa using hb
      subst e1
      subst e2
      cases hj : lookupJob jobs bns ⟨ns1, nme⟩ with
      | some job =>
        have hj2 : lookupJob jobs bns ⟨ns2, nme⟩ = some job := hj
        by_cases hcmp : ((st == computeReleaseCreationJobStatus job) &&
            (msg == computeReleaseCreationJobMessage job)) = true
        · simp [sync, hk, hf1, hf2, hname, hj, hj2, hcmp]
        · simp [sync, hk, hf1, hf2, hname, hj, hj2, hcmp, updatePayload, hb]
      | none =>
        have hj2 : lookupJob jobs bns ⟨ns2, nme⟩ = none := hj
        by_cases hcmp : ((st == ReleaseCreationJobUnknown) &&
            (msg == ReleaseCreationJobUnknownMessage)) = true
        · simp [sync, hk, hf1, hf2, hname, hj, hj2, hcmp]
        · simp [sync, hk, hf1, hf2, hname, hj, hj2, hcmp, updatePayload, hb]

/-- Witness for C9: one job in the store; the record's coordinates namespace
is either the configured job namespace or an unrelated one. -/
theorem claim_C9_witness :
    (("4.11.0-0.nightly-2022-02-09-091559" : String) == "") = false ∧
    (lookupJob [c9Job] "ci-release"
          ⟨"ci-release", "4.11.0-0.nightly-2022-02-09-091559"⟩ =
        lookupJob [c9Job] "ci-release"
          ⟨"other-namespace", "4.11.0-0.nightly-2022-02-09-091559"⟩ ∧
      ((sync ⟨"ci-release",
            [⟨"p", "ocp", ⟨⟨"ci-release", "4.11.0-0.nightly-2022-02-09-091559"⟩, "", ""⟩⟩],
            [c9Job]⟩ "ocp/p").error =
          (sync ⟨"ci-release",
            [⟨"p", "ocp", ⟨⟨"other-namespace", "4.11.0-0.nightly-2022-02-09-091559"⟩, "", ""⟩⟩],
            [c9Job]⟩ "ocp/p").error ∧
        (sync ⟨"ci-release",
            [⟨"p", "ocp", ⟨⟨"ci-release", "4.11.0-0.nightly-2022-02-09-091559"⟩, "", ""⟩⟩],
            [c9Job]⟩ "ocp/p").writes =
          (sync ⟨"ci-release",
            [⟨"p", "ocp", ⟨⟨"other-namespace", "4.11.0-0.nightly-2022-02-09-091559"⟩, "", ""⟩⟩],
            [c9Job]⟩ "ocp/p").writes ∧
        ((sync ⟨"ci-release",
            [⟨"p", "ocp", ⟨⟨"ci-release", "4.11.0-0.nightly-2022-02-09-091559"⟩, "", ""⟩⟩],
            [c9Job]⟩ "ocp/p").payloads.map
            fun p => (p.result.status, p.result.message)) =
          ((sync ⟨"ci-release",
            [⟨"p", "ocp", ⟨⟨"other-namespace", "4.11.0-0.nightly-2022-02-09-091559"⟩, "", ""⟩⟩],
            [c9Job]⟩ "ocp/p").payloads.map
            fun p => (p.result.status, p.result.message)))) :=
  ⟨by decide,
    claim_C9 [c9Job] "ci-release" "ocp" "p" "4.11.0-0.nightly-2022-02-09-091559"
      "ci-release" "other-namespace" "" "" "ocp/p" (by decide)⟩

/-- C10: when `getChangeLog` runs with format `json` and changelog
generation succeeds, the first result sent on the channel is the raw
generator output with no header rewrite, previous-version link substitution
or RHCOS rewriting applied, and the function does not stop there: it runs
the markdown post-processing and sends a second, post-processed result on
the same channel. -/
theorem claim_C10 (fi ti : ImageInfo)
    (changeLogGen : String → String → Bool → Except String String)
    (replacePrevious : String → String)
    (promotedFromReplace : String → String → String)
    (rhcosDiffRewrite rhcosVersionRewrite : String → String → String → String)
    (fromTag toTag out : String)
    (hgen : changeLogGen fi.digestPullSpec ti.digestPullSpec true = Except.ok out) :
    getChangeLog (Except.ok fi) (Except.ok ti) changeLogGen (Except.ok replacePrevious)
        promotedFromReplace rhcosDiffRewrite rhcosVersionRewrite fromTag toTag "json" =
      [Except.ok out,
       Except.ok (rhcosVersionRewrite (archInfo ti.architecture).1
         (archInfo ti.architecture).2
         (rhcosDiffRewrite (archInfo ti.architecture).1 (archInfo ti.architecture).2
           (promotedFromReplace toTag (replacePrevious (stripHeaders fromTag toTag out)))))] := by
  simp [getChangeLog, hgen]

/-- Witness for C10 at a concrete generator and identity rewriters. -/
theorem claim_C10_witness :
    c10Gen c10From.digestPullSpec c10To.digestPullSpec true = Except.ok "raw" ∧
    getChangeLog (Except.ok c10From) (Except.ok c10To) c10Gen (Except.ok c10Id)
        c10Keep2 c10Keep3 c10Keep3 "4.10.0" "4.11.0" "json" =
      [Except.ok "raw",
       Except.ok (c10Keep3 (archInfo c10To.architecture).1 (archInfo c10To.architecture).2
         (c10Keep3 (archInfo c10To.architecture).1 (archInfo c10To.architecture).2
           (c10Keep2 "4.11.0" (c10Id (stripHeaders "4.10.0" "4.11.0" "raw")))))] :=
  ⟨rfl,
    claim_C10 c10From c10To c10Gen c10Id c10Keep2 c10Keep3 c10Keep3
      "4.10.0" "4.11.0" "raw" rfl⟩
